import Mathlib

/-!
Shallow embedding of the OpenLabs API authentication subsystem:
token issuance and validation (`src/app/core/auth/auth.py`,
`src/app/api/v1/auth.py`), user CRUD used by it
(`src/app/crud/crud_users.py`), and the auth error-translation
middleware (`src/app/core/middlewares/auth.py`).
-/

namespace OpenLabs

/-- A Python `datetime`: seconds since epoch plus an optional timezone tag.
`datetime.now(UTC)` carries `some "UTC"`; `.replace(tzinfo=None)` drops it
(a "naive" datetime). -/
structure PyDateTime where
  seconds : Int
  tz : Option String
deriving DecidableEq, Repr

/-- `UserModel` row, restricted to the columns the auth subsystem touches. -/
structure UserRecord where
  id : String
  email : String
  hashed_password : String
  is_admin : Bool
  created_at : PyDateTime
  last_active : PyDateTime
deriving DecidableEq, Repr

/-- `SecretModel` row, restricted to the owner link (the only field the
auth subsystem sets: `create_user` attaches an empty secrets record). -/
structure SecretRec where
  user_id : String
deriving DecidableEq, Repr

/-- The backing store as seen by the Credential Issuer. -/
structure DBState where
  users : List UserRecord
  secrets : List SecretRec
deriving DecidableEq, Repr

/-- Process configuration (`settings`): signing secret, algorithm, expiry. -/
structure Config where
  SECRET_KEY : String
  ALGORITHM : String
  ACCESS_TOKEN_EXPIRE_MINUTES : Nat
deriving DecidableEq, Repr

/-- The JWT claims set the code reads: `payload.get("user")` and
`payload.get("exp")` (epoch seconds). -/
structure Claims where
  user : Option String
  exp : Option Int
deriving DecidableEq, Repr

/-- A token-bearing string: either a well-formed JWT (its claims, with the
secret and algorithm it was signed under) or any other string. -/
inductive TokenStr where
  | signed (claims : Claims) (secret : String) (alg : String)
  | garbage (s : String)
deriving DecidableEq, Repr

/-- Python truthiness of the string: only the empty string is falsy
(a well-formed JWT string is never empty). -/
def TokenStr.truthy : TokenStr → Bool
  | .signed _ _ _ => true
  | .garbage s => s ≠ ""

/-- Errors raised by PyJWT's `jwt.decode`; all are subclasses of
`jwt.PyJWTError`, which is what the caller catches. -/
inductive PyJWTError where
  | decodeError
  | invalidSignature
  | expiredSignature
deriving DecidableEq, Repr

/-- `jwt.decode(tok, key, algorithms=[alg])` with PyJWT's default options:
the signature is verified against `key`/`alg`, and — per PyJWT's documented
default `verify_exp` — when an `exp` claim is present and lies in the past
it raises `ExpiredSignatureError` before the payload is ever returned. -/
def jwtDecode (tok : TokenStr) (key alg : String) (now : Int) :
    Except PyJWTError Claims :=
  match tok with
  | .garbage _ => .error .decodeError
  | .signed c s a =>
    if s = key ∧ a = alg then
      match c.exp with
      | some e => if e < now then .error .expiredSignature else .ok c
      | none => .ok c
    else .error .invalidSignature

/-! ## Python string primitives -/

/-- Python `str.split(sep, maxsplit)` on character lists. -/
def pySplit (sep : Char) : List Char → Nat → List (List Char)
  | cs, 0 => [cs]
  | [], _ + 1 => [[]]
  | c :: cs, m + 1 =>
    if c = sep then
      [] :: pySplit sep cs m
    else
      match pySplit sep cs (m + 1) with
      | [] => [[c]]
      | p :: ps => (c :: p) :: ps

/-- `error_str.split(":", 2)`. -/
def pySplitColon2 (s : String) : List String :=
  (pySplit ':' s.data 2).map (fun l => ⟨l⟩)

/-- Python `str.startswith`. -/
def pyStartsWith : List Char → List Char → Bool
  | _, [] => true
  | [], _ :: _ => false
  | c :: cs, p :: ps => c = p && pyStartsWith cs ps

/-! ## crud_users.py -/

/-- `get_user`: first user whose `email` matches (`scalars().first()`). -/
def get_user (users : List UserRecord) (email : String) : Option UserRecord :=
  users.find? (fun u => u.email == email)

/-- `get_user_by_id`: first user whose `id` matches. -/
def get_user_by_id (users : List UserRecord) (uid : String) : Option UserRecord :=
  users.find? (fun u => u.id == uid)

/-- External bcrypt capability `hashpw(password, salt)`, modelled as a
digest that records the salt and the password. -/
def hashpw (password salt : String) : String :=
  salt ++ "$" ++ password

/-- External bcrypt capability `checkpw(password, digest)`: extract the
salt prefix of the digest and compare the remainder with the password. -/
def checkpw (password digest : String) : Bool :=
  match pySplit '$' digest.data 1 with
  | [_, p] => p == password.data
  | _ => false

/-- `create_user`: hash the password, append the new user row
(`is_admin` as given, `created_at`/`last_active` at aware UTC now),
attach an empty secrets row, commit; returns the created row.
`newId` stands for the database-generated UUID. -/
def create_user (st : DBState) (email password : String) (now : Int)
    (newId salt : String) (is_admin : Bool) : UserRecord × DBState :=
  let hashed_password := hashpw password salt
  let user_obj : UserRecord :=
    { id := newId, email := email, hashed_password := hashed_password,
      is_admin := is_admin,
      created_at := ⟨now, some "UTC"⟩, last_active := ⟨now, some "UTC"⟩ }
  let secrets_object : SecretRec := { user_id := newId }
  (user_obj,
   { users := st.users ++ [user_obj],
     secrets := st.secrets ++ [secrets_object] })

/-! ## api/v1/auth.py -/

/-- A FastAPI `HTTPException(status_code, detail)`. -/
structure HTTPExcept where
  status_code : Nat
  detail : String
deriving DecidableEq, Repr

/-- `UserID` response schema. -/
structure UserID where
  id : String
deriving DecidableEq, Repr

/-- The credential-checking half of `login` (spec's `authenticate`):
look the user up by email; absent user and password mismatch raise the
same 401 with the same detail; success yields the user's id. -/
def authenticate (users : List UserRecord) (email password : String) :
    Except HTTPExcept String :=
  match get_user users email with
  | none => .error ⟨401, "Invalid credentials or user does not exist"⟩
  | some user =>
    if checkpw password user.hashed_password then
      .ok user.id
    else
      .error ⟨401, "Invalid credentials or user does not exist"⟩

/-- The token-construction half of `login` (spec's `issue_token`):
claims `{user: str(user_id), exp: now + ACCESS_TOKEN_EXPIRE_MINUTES}`,
signed with the process secret and algorithm. -/
def issue_token (cfg : Config) (now : Int) (user_id : String) : TokenStr :=
  let expire : Int := now + 60 * (cfg.ACCESS_TOKEN_EXPIRE_MINUTES : Int)
  .signed { user := some user_id, exp := some expire } cfg.SECRET_KEY cfg.ALGORITHM

/-- `login`: authenticate, then return `{"token": <jwt>}`. -/
def login (cfg : Config) (now : Int) (users : List UserRecord)
    (email password : String) : Except HTTPExcept TokenStr :=
  match authenticate users email password with
  | .error e => .error e
  | .ok user_id => .ok (issue_token cfg now user_id)

/-- `register_new_user`: 409 if a user with that email already exists
(checked before creation), else create the user (non-admin) and return
its id. (`create_user` always returns the created row, so the
`if not created_user` 422 branch cannot fire and is omitted.) -/
def register_new_user (st : DBState) (email password : String) (now : Int)
    (newId salt : String) : Except HTTPExcept UserID × DBState :=
  match get_user st.users email with
  | some _ => (.error ⟨409, "User already exists"⟩, st)
  | none =>
    let created := create_user st email password now newId salt false
    (.ok ⟨created.1.id⟩, created.2)

/-! ## core/auth/auth.py -/

/-- Python truthiness filter on an optional token string. -/
def truthyOpt : Option TokenStr → Option TokenStr
  | some t => if t.truthy then some t else none
  | none => none

/-- Lines 42–52 of `get_current_user`: `if token: ... elif credentials and
credentials.credentials: ... else: raise missing_credentials`. -/
def pickToken (token credentials : Option TokenStr) : Except String TokenStr :=
  match truthyOpt token with
  | some t => .ok t
  | none =>
    match truthyOpt credentials with
    | some t => .ok t
    | none => .error "auth:missing_credentials:Authentication credentials missing"

/-- ORM mutation of the fetched row: replace the first record with the
given id (the row `find?` returned) by its updated version. -/
def updateFirstById (users : List UserRecord) (uid : String)
    (f : UserRecord → UserRecord) : List UserRecord :=
  match users with
  | [] => []
  | u :: rest =>
    if u.id == uid then f u :: rest else u :: updateFirstById rest uid f

/-- `get_current_user`: cookie-before-header token extraction, decode,
mandatory `user` and `exp` claims, expiry check, user lookup, then set
`last_active = datetime.now(UTC).replace(tzinfo=None)` and commit.
Errors are the `ValueError` message strings; the returned state is the
post-commit store (unchanged on every failure path; the `ValueError`s
raised inside the `try` are not `PyJWTError`s, so only decoding failures
are remapped to `invalid_token`). -/
def get_current_user (cfg : Config) (now : Int)
    (token credentials : Option TokenStr) (users : List UserRecord) :
    Except String UserRecord × List UserRecord :=
  match pickToken token credentials with
  | .error msg => (.error msg, users)
  | .ok jwt_token =>
    match jwtDecode jwt_token cfg.SECRET_KEY cfg.ALGORITHM now with
    | .error _ => (.error "auth:invalid_token:Invalid authentication credentials", users)
    | .ok payload =>
      match payload.user with
      | none => (.error "auth:invalid_credentials:Invalid authentication credentials", users)
      | some user_id =>
        match payload.exp with
        | none => (.error "auth:no_expiration:Token has no expiration", users)
        | some expiration =>
          if now > expiration then
            (.error "auth:expired:Token has expired", users)
          else
            match get_user_by_id users user_id with
            | none => (.error "auth:user_not_found:User not found", users)
            | some user =>
              let updated := { user with last_active := ⟨now, none⟩ }
              (.ok updated,
               updateFirstById users user.id
                 (fun w => { w with last_active := ⟨now, none⟩ }))

/-! ## core/middlewares/auth.py -/

/-- The middleware's `status_codes` table, looked up with default 500. -/
def status_codes_get (error_type : String) : Nat :=
  if error_type = "missing_credentials" then 401
  else if error_type = "invalid_credentials" then 401
  else if error_type = "no_expiration" then 401
  else if error_type = "expired" then 401
  else if error_type = "user_not_found" then 401
  else if error_type = "invalid_token" then 401
  else if error_type = "forbidden" then 403
  else 500

/-- A `JSONResponse`: status, JSON body fields, extra headers. -/
structure HTTPResponse where
  status_code : Nat
  body : List (String × String)
  headers : List (String × String)
deriving DecidableEq, Repr

/-- `auth_exception_middleware`: pass successes through; on a `ValueError`
whose message starts with `"auth:"` and splits (maxsplit 2) into at least
three parts, answer with the mapped status, `{"detail": detail}` body and
a `WWW-Authenticate: Bearer` header exactly on 401; otherwise re-raise.
The source takes the request and a `router_prefix` but its body consults
neither, so the embedding keeps them as unused parameters. -/
def auth_exception_middleware (path : String) ( router_prefix : String)
    (result : Except String HTTPResponse) : Except String HTTPResponse :=
  match result with
  | .ok response => .ok response
  | .error error_str =>
    if pyStartsWith error_str.data "auth:".data then
      -- split(":", 2) yields at most three parts, so a match on three
      -- elements is `len(parts) >= 3`
      match pySplitColon2 error_str with
      | _ :: error_type :: error_detail :: _ =>
        let status_code := status_codes_get error_type
        let headers : List (String × String) :=
          if status_code = 401 then [("WWW-Authenticate", "Bearer")] else []
        .ok { status_code := status_code,
              body := [("detail", error_detail)],
              headers := headers }
      | _ => .error error_str
    else .error error_str

/-! ## Concrete fixtures -/

/-- A concrete process configuration. -/
def cfg0 : Config := ⟨"test-secret", "HS256", 30⟩

/-- A concrete stored user. -/
def user1 : UserRecord :=
  { id := "u1", email := "alice@example.com", hashed_password := "s1$pw",
    is_admin := false, created_at := ⟨0, some "UTC"⟩, last_active := ⟨0, some "UTC"⟩ }

/-- A concrete user store holding exactly `user1`. -/
def db0 : List UserRecord := [user1]

/-- A well-signed token for `user1` whose expiry lies strictly in the past
at validation time 1000. -/
def expiredTok : TokenStr := .signed ⟨some "u1", some 900⟩ "test-secret" "HS256"

/-! ## Helper lemmas -/

theorem pyStartsWith_append (p r : List Char) : pyStartsWith (p ++ r) p = true := by
  induction p with
  | nil => cases r <;> rfl
  | cons c cs ih => simpa [pyStartsWith] using ih

theorem pySplit_no_sep_append (sep : Char) (l : List Char)
    (hl : ∀ c ∈ l, c ≠ sep) (r : List Char) (m : Nat) :
    pySplit sep (l ++ sep :: r) (m + 1) = l :: pySplit sep r m := by
  induction l with
  | nil => simp [pySplit]
  | cons c cs ih =>
    have hc : ¬(c = sep) := hl c (by simp)
    rw [List.cons_append]
    simp only [pySplit, if_neg hc]
    rw [ih (fun x hx => hl x (by simp [hx]))]

theorem find?_decomp (users : List UserRecord) (uid : String) (v : UserRecord)
    (f : UserRecord → UserRecord)
    (h : users.find? (fun u => u.id == uid) = some v) :
    ∃ l1 l2, users = l1 ++ v :: l2 ∧ v.id = uid ∧
      updateFirstById users uid f = l1 ++ f v :: l2 := by
  induction users with
  | nil => simp at h
  | cons a rest ih =>
    by_cases ha : (a.id == uid) = true
    · have hv : a = v := by simpa [List.find?, ha] using h
      subst hv
      exact ⟨[], rest, rfl, by simpa using ha, by simp [updateFirstById, ha]⟩
    · have h' : rest.find? (fun u => u.id == uid) = some v := by
        simpa [List.find?, ha] using h
      obtain ⟨l1, l2, e1, e2, e3⟩ := ih h'
      exact ⟨a :: l1, l2, by simp [e1], e2,
        by simp [updateFirstById, ha, e3]⟩

theorem pickToken_truthy (t : TokenStr) (ht : t.truthy = true)
    (credentials : Option TokenStr) :
    pickToken (some t) credentials = .ok t := by
  simp [pickToken, truthyOpt, ht]

/-! ## Claims -/

/-- C1: the claim states that a well-signed token carrying both mandatory
claims whose `expires_at` lies strictly in the past is rejected with kind
`expired` (detail "Token has expired"), and that `expired` — not
`invalid_token` — reaches the Error Translator. On the code this fails:
`jwt.decode` runs with PyJWT's default `verify_exp`, so the expired token
raises `ExpiredSignatureError` (a `PyJWTError`) inside `decode`, which the
handler remaps to `auth:invalid_token:Invalid authentication credentials`;
the manual `auth:expired` branch after the decode is unreachable for such
a token. Evaluated here at a token for the stored user `u1`, signed with
the process secret, `exp = 900`, validated at time 1000. -/
theorem C1_expired_token_is_classified_invalid_token :
    (get_current_user cfg0 1000 (some expiredTok) none db0).1
      = .error "auth:invalid_token:Invalid authentication credentials" ∧
    (get_current_user cfg0 1000 (some expiredTok) none db0).1
      ≠ .error "auth:expired:Token has expired" := by
  refine ⟨rfl, fun h => ?_⟩
  rw [show (get_current_user cfg0 1000 (some expiredTok) none db0).1
      = .error "auth:invalid_token:Invalid authentication credentials" from rfl] at h
  injection h with h'
  exact absurd h' (by decide)

/-- C2: the claim states that a classified failure raised on a request
whose path is outside the configured API router prefix is re-raised
unchanged and never translated. On the code this fails: the middleware
body never consults the request path or its `router_prefix` parameter
(contradicting its own docstring), so it translates the failure anyway.
Evaluated here at path "/docs", prefix "/api/v1" (the path is not under
the prefix, second conjunct), where the classified failure is still
turned into a 401 response instead of being re-raised. -/
theorem C2_non_api_path_is_still_translated :
    auth_exception_middleware "/docs" "/api/v1"
        (.error "auth:expired:Token has expired")
      = .ok ⟨401, [("detail", "Token has expired")], [("WWW-Authenticate", "Bearer")]⟩ ∧
    pyStartsWith "/docs".data "/api/v1".data = false := ⟨rfl, rfl⟩

/-- C4: for a request carrying a present, non-empty (truthy) `token`
cookie, the authenticator's outcome does not depend on the Authorization
header at all: the result is identical for any two header values. -/
theorem C4_cookie_used_exclusively (cfg : Config) (now : Int)
    (users : List UserRecord) (t : TokenStr) (ht : t.truthy = true)
    (credentials credentials' : Option TokenStr) :
    get_current_user cfg now (some t) credentials users
      = get_current_user cfg now (some t) credentials' users := by
  unfold get_current_user
  rw [pickToken_truthy t ht credentials, pickToken_truthy t ht credentials']

/-- C4 witness: a valid cookie token for `u1` together with an expired
header token gives the same (successful) outcome as the cookie alone. -/
theorem C4_cookie_used_exclusively_witness :
    (issue_token cfg0 1000 "u1").truthy = true ∧
    get_current_user cfg0 1000 (some (issue_token cfg0 1000 "u1"))
        (some expiredTok) db0
      = get_current_user cfg0 1000 (some (issue_token cfg0 1000 "u1")) none db0 ∧
    (get_current_user cfg0 1000 (some (issue_token cfg0 1000 "u1"))
        (some expiredTok) db0).1
      = .ok { user1 with last_active := ⟨1000, none⟩ } :=
  ⟨rfl, C4_cookie_used_exclusively cfg0 1000 db0 (issue_token cfg0 1000 "u1") rfl
      (some expiredTok) none, rfl⟩

/-- C10: a `ValueError` whose message starts with "auth:" but splits
(`split(":", 2)`) into fewer than three parts is re-raised unchanged by
the middleware — no HTTP response is produced, for any request path and
prefix (in particular for paths under the prefix). -/
theorem C10_short_auth_message_reraised (path pfx msg : String)
    (h1 : pyStartsWith msg.data "auth:".data = true)
    (h2 : (pySplitColon2 msg).length < 3) :
    auth_exception_middleware path pfx (.error msg) = .error msg := by
  simp only [auth_exception_middleware, h1, if_true]
  rcases hm : pySplitColon2 msg with _ | ⟨a, _ | ⟨b, _ | ⟨c, rest⟩⟩⟩
  · rfl
  · rfl
  · rfl
  · rw [hm] at h2
    simp at h2
    omega

/-- C10 witness: the message "auth:broken" (two parts) raised under the
API prefix is re-raised, not translated. -/
theorem C10_short_auth_message_reraised_witness :
    pyStartsWith "auth:broken".data "auth:".data = true ∧
    (pySplitColon2 "auth:broken").length < 3 ∧
    auth_exception_middleware "/api/v1/templates" "/api/v1" (.error "auth:broken")
      = .error "auth:broken" :=
  ⟨rfl, by decide,
    C10_short_auth_message_reraised "/api/v1/templates" "/api/v1" "auth:broken"
      rfl (by decide)⟩

/-- C3: round-trip — for any user id `uid` whose record exists in the
store, the token built by `issue_token` (claims
`{user: uid, exp: now + 60 * ACCESS_TOKEN_EXPIRE_MINUTES}`, signed with
the process secret and algorithm) validates successfully at the same
instant and resolves to the record with id `uid` (returned with its
`last_active` freshly set). -/
theorem C3_issue_validate_round_trip (cfg : Config) (now : Int)
    (users : List UserRecord) (uid : String) (u : UserRecord)
    (hu : get_user_by_id users uid = some u) :
    (get_current_user cfg now (some (issue_token cfg now uid)) none users).1
      = .ok { u with last_active := ⟨now, none⟩ } ∧ u.id = uid := by
  have hid : u.id = uid := by
    have h' := List.find?_some
      (show List.find? (fun (w : UserRecord) => w.id == uid) users = some u from hu)
    simpa using h'
  have hne : ¬ (now + 60 * (cfg.ACCESS_TOKEN_EXPIRE_MINUTES : Int) < now) := by
    omega
  have hdec : jwtDecode (issue_token cfg now uid) cfg.SECRET_KEY cfg.ALGORITHM now
      = .ok ⟨some uid, some (now + 60 * (cfg.ACCESS_TOKEN_EXPIRE_MINUTES : Int))⟩ := by
    simp [issue_token, jwtDecode, hne]
  have hgt : ¬ (now > now + 60 * (cfg.ACCESS_TOKEN_EXPIRE_MINUTES : Int)) := by
    omega
  refine ⟨?_, hid⟩
  simp only [get_current_user, pickToken_truthy (issue_token cfg now uid) rfl none,
    hdec, hgt, if_false, hu]

/-- C3 witness: the token issued for `u1` at time 1000 validates at
time 1000 against the store `db0` and yields `u1`'s record. -/
theorem C3_issue_validate_round_trip_witness :
    get_user_by_id db0 "u1" = some user1 ∧
    ((get_current_user cfg0 1000 (some (issue_token cfg0 1000 "u1")) none db0).1
        = .ok { user1 with last_active := ⟨1000, none⟩ } ∧ user1.id = "u1") :=
  ⟨rfl, C3_issue_validate_round_trip cfg0 1000 db0 "u1" user1 rfl⟩

/-- C6: anti-enumeration — a login attempt for an unknown email and a
login attempt with a wrong password for a stored email fail with the
same status and the same detail text; an attempt whose password verifies
against the stored digest yields that record's id. -/
theorem C6_login_anti_enumeration (users : List UserRecord)
    (email password : String) :
    (get_user users email = none →
      authenticate users email password
        = .error ⟨401, "Invalid credentials or user does not exist"⟩) ∧
    (∀ u, get_user users email = some u →
      checkpw password u.hashed_password = false →
      authenticate users email password
        = .error ⟨401, "Invalid credentials or user does not exist"⟩) ∧
    (∀ u, get_user users email = some u →
      checkpw password u.hashed_password = true →
      authenticate users email password = .ok u.id) := by
  refine ⟨fun h => ?_, fun u h hc => ?_, fun u h hc => ?_⟩
  · simp [authenticate, h]
  · simp [authenticate, h, hc]
  · simp [authenticate, h, hc]

/-- C6 witness: against `db0`, the unknown email "bob@example.com" and the
wrong password "nope" for "alice@example.com" produce the identical 401
failure, while the correct password resolves to `u1`. -/
theorem C6_login_anti_enumeration_witness :
    authenticate db0 "bob@example.com" "pw"
      = .error ⟨401, "Invalid credentials or user does not exist"⟩ ∧
    authenticate db0 "alice@example.com" "nope"
      = .error ⟨401, "Invalid credentials or user does not exist"⟩ ∧
    authenticate db0 "alice@example.com" "pw" = .ok "u1" :=
  ⟨(C6_login_anti_enumeration db0 "bob@example.com" "pw").1 rfl,
   (C6_login_anti_enumeration db0 "alice@example.com" "nope").2.1 user1 rfl rfl,
   (C6_login_anti_enumeration db0 "alice@example.com" "pw").2.2 user1 rfl rfl⟩

/-- C7: mandatory claims — for any token the decode accepts, a missing
`user` (subject) claim fails with kind `invalid_credentials`; with the
subject present, a missing `exp` claim fails with kind `no_expiration`
(the subject check runs first, per the spec's first-match-wins transition
order). In both cases the result is a failure, never an authenticated
user. -/
theorem C7_mandatory_claims (cfg : Config) (now : Int)
    (users : List UserRecord) (t : TokenStr) (c : Claims)
    (ht : t.truthy = true)
    (hdec : jwtDecode t cfg.SECRET_KEY cfg.ALGORITHM now = .ok c) :
    (c.user = none →
      (get_current_user cfg now (some t) none users).1
        = .error "auth:invalid_credentials:Invalid authentication credentials") ∧
    (∀ uid, c.user = some uid → c.exp = none →
      (get_current_user cfg now (some t) none users).1
        = .error "auth:no_expiration:Token has no expiration") := by
  constructor
  · intro hu
    simp [get_current_user, pickToken_truthy t ht none, hdec, hu]
  · intro uid hu he
    simp [get_current_user, pickToken_truthy t ht none, hdec, hu, he]

/-- C7 witness: a well-signed token with no claims at all fails with
`invalid_credentials`; one carrying only the subject fails with
`no_expiration`. -/
theorem C7_mandatory_claims_witness :
    jwtDecode (.signed ⟨none, none⟩ "test-secret" "HS256")
        cfg0.SECRET_KEY cfg0.ALGORITHM 1000 = .ok ⟨none, none⟩ ∧
    jwtDecode (.signed ⟨some "u1", none⟩ "test-secret" "HS256")
        cfg0.SECRET_KEY cfg0.ALGORITHM 1000 = .ok ⟨some "u1", none⟩ ∧
    (get_current_user cfg0 1000
        (some (.signed ⟨none, none⟩ "test-secret" "HS256")) none db0).1
      = .error "auth:invalid_credentials:Invalid authentication credentials" ∧
    (get_current_user cfg0 1000
        (some (.signed ⟨some "u1", none⟩ "test-secret" "HS256")) none db0).1
      = .error "auth:no_expiration:Token has no expiration" :=
  ⟨rfl, rfl,
   (C7_mandatory_claims cfg0 1000 db0 (.signed ⟨none, none⟩ "test-secret" "HS256")
      ⟨none, none⟩ rfl rfl).1 rfl,
   (C7_mandatory_claims cfg0 1000 db0 (.signed ⟨some "u1", none⟩ "test-secret" "HS256")
      ⟨some "u1", none⟩ rfl rfl).2 "u1" rfl rfl⟩

/-- C5: Error Translator output contract — for any classified failure
`auth:kind:detail` (kind colon-free, as all produced kinds are) raised on
a request under the API router prefix, the middleware answers with the
fixed status table (the six credential kinds → 401, `forbidden` → 403,
anything else → 500), a body of exactly `{"detail": detail}`, and a
`WWW-Authenticate: Bearer` header present exactly when the status
is 401. -/
theorem C5_translator_output_contract (path pfx kind detail : String)
    (hpfx : pyStartsWith path.data pfx.data = true)
    (hkind : ∀ c ∈ kind.data, c ≠ ':') :
    ∃ r : HTTPResponse,
      auth_exception_middleware path pfx
          (.error ("auth:" ++ kind ++ ":" ++ detail)) = .ok r ∧
      r.status_code =
        (if kind ∈ (["missing_credentials", "invalid_credentials", "no_expiration",
                     "expired", "user_not_found", "invalid_token"] : List String)
         then 401 else if kind = "forbidden" then 403 else 500) ∧
      r.body = [("detail", detail)] ∧
      r.headers =
        (if r.status_code = 401 then [("WWW-Authenticate", "Bearer")] else []) := by
  have hcolon : (":" : String).data = [':'] := rfl
  have hdata : ("auth:" ++ kind ++ ":" ++ detail).data
      = "auth:".data ++ (kind.data ++ ':' :: detail.data) := by
    simp only [String.data_append, hcolon, List.append_assoc, List.singleton_append]
  have hstart : pyStartsWith ("auth:" ++ kind ++ ":" ++ detail).data "auth:".data
      = true := by
    rw [hdata]; exact pyStartsWith_append _ _
  have hdata2 : ("auth:" ++ kind ++ ":" ++ detail).data
      = "auth".data ++ ':' :: (kind.data ++ ':' :: detail.data) := by
    rw [hdata]; rfl
  have hsplit : pySplit ':' ("auth:" ++ kind ++ ":" ++ detail).data 2
      = ["auth".data, kind.data, detail.data] := by
    rw [hdata2, pySplit_no_sep_append ':' "auth".data (by decide) _ 1,
      pySplit_no_sep_append ':' kind.data hkind _ 0]
    simp only [pySplit]
  have hcolon2 : pySplitColon2 ("auth:" ++ kind ++ ":" ++ detail)
      = ["auth", kind, detail] := by
    unfold pySplitColon2
    rw [hsplit]
    rfl
  refine ⟨⟨status_codes_get kind, [("detail", detail)],
      if status_codes_get kind = 401 then [("WWW-Authenticate", "Bearer")] else []⟩,
    ?_, ?_, rfl, rfl⟩
  · simp only [auth_exception_middleware, hstart, if_true, hcolon2]
  · show status_codes_get kind = _
    unfold status_codes_get
    split_ifs <;> simp_all

/-- C5 witness: the failure `auth:expired:Token has expired` raised under
the prefix "/api/v1" is answered with 401, body
`{"detail": "Token has expired"}` and a `WWW-Authenticate: Bearer`
header. -/
theorem C5_translator_output_contract_witness :
    pyStartsWith "/api/v1/templates".data "/api/v1".data = true ∧
    (∀ c ∈ ("expired" : String).data, c ≠ ':') ∧
    (∃ r : HTTPResponse,
      auth_exception_middleware "/api/v1/templates" "/api/v1"
          (.error ("auth:" ++ "expired" ++ ":" ++ "Token has expired")) = .ok r ∧
      r.status_code =
        (if ("expired" : String) ∈
            (["missing_credentials", "invalid_credentials", "no_expiration",
              "expired", "user_not_found", "invalid_token"] : List String)
         then 401 else if ("expired" : String) = "forbidden" then 403 else 500) ∧
      r.body = [("detail", "Token has expired")] ∧
      r.headers =
        (if r.status_code = 401 then [("WWW-Authenticate", "Bearer")] else [])) :=
  ⟨rfl, by decide,
    C5_translator_output_contract "/api/v1/templates" "/api/v1" "expired"
      "Token has expired" rfl (by decide)⟩

/-- C8: frame invariant — a successful run of the authenticator returns a
record agreeing with a stored record on every field except `last_active`,
which is set to the current time with the timezone stripped; the
committed store replaces exactly that one record (the lists on either
side of it are untouched) with the returned one. Every failing run leaves
the store exactly as it was. -/
theorem C8_success_updates_only_last_active (cfg : Config) (now : Int)
    (token credentials : Option TokenStr) (users : List UserRecord) :
    (∀ u users',
      get_current_user cfg now token credentials users = (.ok u, users') →
      ∃ l1 v l2, users = l1 ++ v :: l2 ∧
        u.id = v.id ∧ u.email = v.email ∧ u.hashed_password = v.hashed_password ∧
        u.is_admin = v.is_admin ∧ u.created_at = v.created_at ∧
        u.last_active = ⟨now, none⟩ ∧
        users' = l1 ++ u :: l2) ∧
    (∀ msg users',
      get_current_user cfg now token credentials users = (.error msg, users') →
      users' = users) := by
  constructor
  · intro u users' h
    unfold get_current_user at h
    repeat' split at h
    all_goals simp only [Prod.mk.injEq, Except.ok.injEq, Except.error.injEq,
      reduceCtorEq, false_and] at h
    obtain ⟨h1, h2⟩ := h
    rename_i user heq0
    subst h1
    obtain ⟨l1, l2, e1, e2, e3⟩ := find?_decomp users _ user
      (fun w => { w with last_active := ⟨now, none⟩ }) heq0
    rw [e2] at h2
    rw [e3] at h2
    exact ⟨l1, user, l2, e1, rfl, rfl, rfl, rfl, rfl, rfl, h2.symm⟩
  · intro msg users' h
    unfold get_current_user at h
    repeat' split at h
    all_goals simp only [Prod.mk.injEq, Except.ok.injEq, Except.error.injEq,
      reduceCtorEq, false_and] at h
    all_goals exact h.2.symm

/-- C8 witness: validating `u1`'s freshly issued token against `db0`
succeeds and commits a store in which only `u1`'s `last_active` changed,
set to naive time 1000. -/
theorem C8_success_updates_only_last_active_witness :
    get_current_user cfg0 1000 (some (issue_token cfg0 1000 "u1")) none db0
      = (.ok { user1 with last_active := ⟨1000, none⟩ },
         [{ user1 with last_active := ⟨1000, none⟩ }]) ∧
    (∃ l1 v l2, db0 = l1 ++ v :: l2 ∧
      user1.id = v.id ∧ user1.email = v.email ∧
      user1.hashed_password = v.hashed_password ∧
      user1.is_admin = v.is_admin ∧ user1.created_at = v.created_at ∧
      (⟨1000, none⟩ : PyDateTime) = ⟨1000, none⟩ ∧
      [{ user1 with last_active := ⟨1000, none⟩ }]
        = l1 ++ { user1 with last_active := ⟨1000, none⟩ } :: l2) :=
  ⟨rfl,
   (C8_success_updates_only_last_active cfg0 1000
      (some (issue_token cfg0 1000 "u1")) none db0).1
      { user1 with last_active := ⟨1000, none⟩ }
      [{ user1 with last_active := ⟨1000, none⟩ }] rfl⟩

theorem find?_append_none {α} (p : α → Bool) (l1 l2 : List α)
    (h : l1.find? p = none) : (l1 ++ l2).find? p = l2.find? p := by
  induction l1 with
  | nil => simp
  | cons a t ih =>
    cases hpa : p a with
    | true => simp [List.find?_cons, hpa] at h
    | false =>
      have h' : t.find? p = none := by simpa [List.find?_cons, hpa] using h
      simpa [List.find?_cons, hpa] using ih h'

theorem filter_eq_nil_of_find?_none {α} (p : α → Bool) (l : List α)
    (h : l.find? p = none) : l.filter p = [] := by
  induction l with
  | nil => rfl
  | cons a t ih =>
    cases hpa : p a with
    | true => simp [List.find?_cons, hpa] at h
    | false =>
      have h' : t.find? p = none := by simpa [List.find?_cons, hpa] using h
      simp [List.filter_cons, hpa, ih h']

/-- C9: duplicate registration — starting from a store with no user under
email `e`, a first `register` succeeds; a second `register` with the same
email fails with a 409 conflict, leaves the store exactly as the first
call left it (so no creation is attempted), and that store holds exactly
one user record with email `e`. -/
theorem C9_duplicate_register_conflict (st : DBState) (email p1 p2 : String)
    (now1 now2 : Int) (id1 id2 salt1 salt2 : String)
    (h0 : get_user st.users email = none) :
    (register_new_user st email p1 now1 id1 salt1).1 = .ok ⟨id1⟩ ∧
    (register_new_user (register_new_user st email p1 now1 id1 salt1).2
        email p2 now2 id2 salt2).1 = .error ⟨409, "User already exists"⟩ ∧
    (register_new_user (register_new_user st email p1 now1 id1 salt1).2
        email p2 now2 id2 salt2).2
      = (register_new_user st email p1 now1 id1 salt1).2 ∧
    ((register_new_user st email p1 now1 id1 salt1).2.users.filter
        (fun u => u.email == email)).length = 1 := by
  have hreg1 : register_new_user st email p1 now1 id1 salt1
      = (.ok ⟨id1⟩,
         ⟨st.users ++ [⟨id1, email, hashpw p1 salt1, false,
            ⟨now1, some "UTC"⟩, ⟨now1, some "UTC"⟩⟩],
          st.secrets ++ [⟨id1⟩]⟩) := by
    unfold register_new_user create_user
    rw [h0]
  have h2 : get_user (st.users ++ [⟨id1, email, hashpw p1 salt1, false,
      ⟨now1, some "UTC"⟩, ⟨now1, some "UTC"⟩⟩]) email
      = some ⟨id1, email, hashpw p1 salt1, false,
          ⟨now1, some "UTC"⟩, ⟨now1, some "UTC"⟩⟩ := by
    unfold get_user at h0 ⊢
    rw [find?_append_none _ _ _ h0]
    simp [List.find?_cons]
  have hfil : st.users.filter (fun u => u.email == email) = [] :=
    filter_eq_nil_of_find?_none _ _ h0
  refine ⟨?_, ?_, ?_, ?_⟩
  · rw [hreg1]
  · rw [hreg1]
    simp [register_new_user, h2]
  · rw [hreg1]
    simp [register_new_user, h2]
  · rw [hreg1]
    simp [List.filter_append, hfil]

/-- C9 witness: registering "alice@example.com" twice against the empty
store — the first call succeeds, the second answers 409 and creates
nothing, and exactly one record with that email exists afterwards. -/
theorem C9_duplicate_register_conflict_witness :
    get_user (⟨[], []⟩ : DBState).users "alice@example.com" = none ∧
    ((register_new_user ⟨[], []⟩ "alice@example.com" "pw" 5 "id1" "s1").1
        = .ok ⟨"id1"⟩ ∧
      (register_new_user
          (register_new_user ⟨[], []⟩ "alice@example.com" "pw" 5 "id1" "s1").2
          "alice@example.com" "pw2" 6 "id2" "s2").1
        = .error ⟨409, "User already exists"⟩ ∧
      (register_new_user
          (register_new_user ⟨[], []⟩ "alice@example.com" "pw" 5 "id1" "s1").2
          "alice@example.com" "pw2" 6 "id2" "s2").2
        = (register_new_user ⟨[], []⟩ "alice@example.com" "pw" 5 "id1" "s1").2 ∧
      ((register_new_user ⟨[], []⟩ "alice@example.com" "pw" 5 "id1" "s1").2.users.filter
          (fun u => u.email == "alice@example.com")).length = 1) :=
  ⟨rfl, C9_duplicate_register_conflict ⟨[], []⟩ "alice@example.com" "pw" "pw2"
      5 6 "id1" "id2" "s1" "s2" rfl⟩

end OpenLabs
